import Mathlib

/-!
Shallow embedding of the Zebby Faderbank collaboration core
(src/database.py and src/app.py) and verification of its
specification claims.

Modelling conventions:
- SQL tables are Lean lists of row structures; an SQL UPDATE with a
  WHERE clause is a `List.map` that rewrites exactly the rows matching
  the WHERE predicate; DELETE is a `List.filter`; INSERT is an append.
- `datetime` values (NOW(), expires_at, taken_at, ...) are abstract
  `Nat` instants passed in as a `now` parameter.
- Nullable SQL columns are `Option` fields; `None`/NULL is `none`.
- Python truthiness on ids (`if not profile_id`) is `== 0` on `Nat`
  and explicit `Option` handling where the value can be NULL.
- Socket.IO `emit` calls are collected in an output list of
  `(EmitTarget, ServerEvent)` pairs: `requester` is an emit without a
  room (goes only to the requesting connection), `room` is an emit to
  the whole room, `roomExceptSender` is a room emit with
  `include_self=False`.
-/

namespace Faderbank

/-- Member roles, in the order used by the role hierarchy in app.py. -/
inductive Role where
  | owner
  | admin
  | technician
  | operator
  | guest
deriving DecidableEq, Repr

/-- Row of the `user` table. -/
structure User where
  id : Nat
  username : Option String
  display_name : Option String
deriving DecidableEq, Repr

/-- Row of the `profile` table. -/
structure Profile where
  id : Nat
  name : String
  slug : String
  owner_id : Nat
deriving DecidableEq, Repr

/-- Row of the `profile_member` table. -/
structure Member where
  profile_id : Nat
  user_id : Nat
  role : Role
  added_by : Option Nat
deriving DecidableEq, Repr

/-- Row of the `activation_link` table. -/
structure ActivationLink where
  id : Nat
  profile_id : Nat
  token : String
  role : Role
  created_by : Nat
  expires_at : Nat
  used_by : Option Nat
  used_at : Option Nat
  canceled_at : Option Nat
deriving DecidableEq, Repr

/-- Row of the `channel_strip` table.  Columns that app code can set to
SQL NULL are `Option`-typed. -/
structure ChannelStrip where
  id : Nat
  profile_id : Nat
  name : Option String
  position : Option Int
  color : Option String
  midi_cc_output : Option Int
  midi_cc_vu_input : Option Int
  midi_cc_mute : Option Int
  midi_cc_solo : Option Int
  min_level : Option Int
  max_level : Option Int
  current_level : Option Int
  is_muted : Option Bool
  is_solo : Option Bool
  vu_level : Option Int
  state_version : Nat
deriving DecidableEq, Repr

/-- Row of the `profile_responsibility` table; `user_id = none` means
the profile is unclaimed. -/
structure Responsibility where
  profile_id : Nat
  user_id : Option Nat
  taken_at : Option Nat
deriving DecidableEq, Repr

/-- The persistent store: one list per table used by the core. -/
structure DB where
  users : List User
  profiles : List Profile
  members : List Member
  links : List ActivationLink
  channels : List ChannelStrip
  responsibilities : List Responsibility
deriving DecidableEq, Repr

/-- Entry of the in-memory `online_users` map of app.py
(`online_users[profile_id][user_id] = {sid, display_name, joined_at}`). -/
structure OnlineEntry where
  profile_id : Nat
  user_id : Nat
  sid : Nat
  display_name : Option String
  joined_at : Nat
deriving DecidableEq, Repr

/-- Full server state: the database plus the in-memory presence map. -/
structure AppState where
  db : DB
  online : List OnlineEntry
deriving DecidableEq, Repr

/-- Who an emitted Socket.IO event is delivered to. -/
inductive EmitTarget where
  | requester
  | room
  | roomExceptSender
deriving DecidableEq, Repr

/-- Server-to-client events emitted by the handlers modelled here. -/
inductive ServerEvent where
  | user_left (user_id : Nat)
  | responsibility_changed (user_id : Option Nat) (display_name : Option String)
  | confirm_take_responsibility (current_user_id : Option Nat)
      (current_display_name : Option String)
  | fader_update (channel_id : Nat) (level : Int) (user_id : Option Nat) (is_final : Bool)
  | mute_update (channel_id : Nat) (is_muted : Bool) (user_id : Option Nat)
  | solo_update (channel_id : Nat) (is_solo : Bool) (user_id : Option Nat)
deriving DecidableEq, Repr

/-- Outcome of a request/response API route: `jsonify` result plus
HTTP status.  `okWithToken` is the success shape of the invite route. -/
inductive ApiResult where
  | ok
  | okWithToken (token : String)
  | err (status : Nat) (msg : String)
deriving DecidableEq, Repr

/-- Python membership test `role in [r1, ...]` where `role` may be
`None` (a missing member row): `None` is never in a list of strings. -/
def roleIn (r : Option Role) (l : List Role) : Bool :=
  match r with
  | none => false
  | some x => l.contains x

/-- Python truthiness of a nullable numeric column
(`if current['user_id']`): NULL and 0 are falsy. -/
def pyTruthyNat : Option Nat → Bool
  | none => false
  | some n => n != 0

/-! ### database.py: membership queries -/

/-- database.py `get_user_role`: role of a user in a profile, `none`
if not a member. -/
def get_user_role (db : DB) (profile_id user_id : Nat) : Option Role :=
  (db.members.find? (fun m => m.profile_id == profile_id && m.user_id == user_id)).map
    Member.role

/-- database.py `update_member_role`: UPDATE profile_member SET role
WHERE profile_id AND user_id. -/
def update_member_role (profile_id user_id : Nat) (new_role : Role) (db : DB) : DB :=
  { db with members := db.members.map (fun m =>
      if m.profile_id == profile_id && m.user_id == user_id then
        { m with role := new_role }
      else m) }

/-- database.py `remove_profile_member`: DELETE FROM profile_member
WHERE profile_id AND user_id. -/
def remove_profile_member (profile_id user_id : Nat) (db : DB) : DB :=
  { db with members := db.members.filter (fun m =>
      !(m.profile_id == profile_id && m.user_id == user_id)) }

/-- database.py `transfer_ownership`: reads the current owner, points
`profile.owner_id` at the new owner, demotes the old owner member row
to admin and promotes the new owner member row to owner.  A missing
profile row makes the Python raise before COMMIT, leaving the store
unchanged. -/
def transfer_ownership (profile_id new_owner_id : Nat) (db : DB) : DB :=
  match db.profiles.find? (fun p => p.id == profile_id) with
  | none => db
  | some profile =>
    let old_owner_id := profile.owner_id
    let profiles2 := db.profiles.map (fun p =>
      if p.id == profile_id then { p with owner_id := new_owner_id } else p)
    let members2 := db.members.map (fun m =>
      if m.profile_id == profile_id && m.user_id == old_owner_id then
        { m with role := Role.admin }
      else m)
    let members3 := members2.map (fun m =>
      if m.profile_id == profile_id && m.user_id == new_owner_id then
        { m with role := Role.owner }
      else m)
    { db with profiles := profiles2, members := members3 }

/-- database.py `create_profile`: INSERTs the profile row, the owner
member row (no added_by, so NULL) and an unclaimed responsibility row
as one transaction and returns the fresh profile id.  The
AUTO_INCREMENT id chosen by the store (`cursor.lastrowid`) is passed
in as `profile_id`. -/
def create_profile (profile_id : Nat) (name slug : String) (owner_id : Nat)
    (db : DB) : Nat × DB :=
  (profile_id,
   { db with
     profiles := db.profiles ++
       [{ id := profile_id, name := name, slug := slug, owner_id := owner_id }],
     members := db.members ++
       [{ profile_id := profile_id, user_id := owner_id, role := Role.owner,
          added_by := none }],
     responsibilities := db.responsibilities ++
       [{ profile_id := profile_id, user_id := none, taken_at := none }] })

/-! ### database.py: activation links -/

/-- database.py `get_activation_link`: SELECT the link row by token,
INNER JOINed with its profile (for profile_name/profile_slug). -/
def get_activation_link (db : DB) (token : String) :
    Option (ActivationLink × Profile) :=
  (db.links.find? (fun l => l.token == token)).bind (fun l =>
    (db.profiles.find? (fun p => p.id == l.profile_id)).map (fun p => (l, p)))

/-- database.py `is_activation_link_valid`: valid iff the row exists,
`used_at` and `canceled_at` are NULL and it has not expired. -/
def is_activation_link_valid (now : Nat) :
    Option (ActivationLink × Profile) → Bool
  | none => false
  | some (l, _) =>
    if l.used_at.isSome then false
    else if l.canceled_at.isSome then false
    else if l.expires_at < now then false
    else true

/-- database.py `redeem_activation_link`: checks validity, checks the
user is not already a member, then inserts the member row and stamps
`used_by`/`used_at` in one transaction.  Returns the Python
`(success, message-or-slug)` pair together with the resulting store. -/
def redeem_activation_link (now : Nat) (token : String) (user_id : Nat) (db : DB) :
    (Bool × String) × DB :=
  let link? := get_activation_link db token
  if !(is_activation_link_valid now link?) then
    ((false, "Link is no longer valid"), db)
  else
    match link? with
    | none => ((false, "Link is no longer valid"), db)
    | some (link, profile) =>
      match get_user_role db link.profile_id user_id with
      | some _ => ((false, "You already have access to this profile"), db)
      | none =>
        let members2 := db.members ++
          [{ profile_id := link.profile_id, user_id := user_id,
             role := link.role, added_by := some link.created_by }]
        let links2 := db.links.map (fun x =>
          if x.token == token then
            { x with used_by := some user_id, used_at := some now }
          else x)
        ((true, profile.slug), { db with members := members2, links := links2 })

/-- database.py `create_activation_link`: INSERT a fresh single-use
link expiring 7 days from now (time modelled in days); the random
token is passed in, standing for `secrets.token_urlsafe(32)`. -/
def create_activation_link (now : Nat) (token : String) (profile_id : Nat)
    (role : Role) (created_by : Nat) (db : DB) : DB :=
  { db with links := db.links ++
      [{ id := db.links.length, profile_id := profile_id, token := token,
         role := role, created_by := created_by, expires_at := now + 7,
         used_by := none, used_at := none, canceled_at := none }] }

/-! ### database.py: channel strips -/

/-- database.py `update_fader_level`: sets `current_level` and bumps
`state_version` by one on the row with the given id. -/
def update_fader_level (channel_id : Nat) (level : Int) (db : DB) : DB :=
  { db with channels := db.channels.map (fun c =>
      if c.id == channel_id then
        { c with current_level := some level, state_version := c.state_version + 1 }
      else c) }

/-- database.py `update_mute_state`: sets `is_muted` and bumps
`state_version` by one on the row with the given id. -/
def update_mute_state (channel_id : Nat) (is_muted : Bool) (db : DB) : DB :=
  { db with channels := db.channels.map (fun c =>
      if c.id == channel_id then
        { c with is_muted := some is_muted, state_version := c.state_version + 1 }
      else c) }

/-- database.py `update_solo_state`: sets `is_solo` and bumps
`state_version` by one on the row with the given id. -/
def update_solo_state (channel_id : Nat) (is_solo : Bool) (db : DB) : DB :=
  { db with channels := db.channels.map (fun c =>
      if c.id == channel_id then
        { c with is_solo := some is_solo, state_version := c.state_version + 1 }
      else c) }

/-- database.py `update_vu_level`: sets `vu_level` only; explicitly no
`state_version` increment. -/
def update_vu_level (channel_id : Nat) (level : Int) (db : DB) : DB :=
  { db with channels := db.channels.map (fun c =>
      if c.id == channel_id then { c with vu_level := some level } else c) }

/-- Names of channel_strip columns that update requests can mention
(the allowed ones plus the protected ones the claims talk about). -/
inductive CSFieldName where
  | fname
  | fposition
  | fcolor
  | fmidi_cc_output
  | fmidi_cc_vu_input
  | fmidi_cc_mute
  | fmidi_cc_solo
  | fmin_level
  | fmax_level
  | fcurrent_level
  | fis_muted
  | fis_solo
  | fprofile_id
  | fvu_level
  | fstate_version
deriving DecidableEq, Repr

/-- A parameter value handed to the SQL driver: Python None / int /
str / bool. -/
inductive SqlVal where
  | vnull
  | vint (n : Int)
  | vstr (s : String)
  | vbool (b : Bool)
deriving DecidableEq, Repr

/-- Value of an integer column after binding a parameter
(NULL stays NULL). -/
def SqlVal.asInt : SqlVal → Option Int
  | .vint n => some n
  | _ => none

/-- Value of a string column after binding a parameter. -/
def SqlVal.asStr : SqlVal → Option String
  | .vstr s => some s
  | _ => none

/-- Value of a boolean column after binding a parameter. -/
def SqlVal.asBool : SqlVal → Option Bool
  | .vbool b => some b
  | _ => none

/-- database.py `update_channel_strip` `allowed_fields` list. -/
def allowed_fields : List CSFieldName :=
  [.fname, .fposition, .fcolor, .fmidi_cc_output, .fmidi_cc_vu_input,
   .fmidi_cc_mute, .fmidi_cc_solo, .fmin_level, .fmax_level,
   .fcurrent_level, .fis_muted, .fis_solo]

/-- One `field = %s` assignment of the generated UPDATE statement.
Only allowed fields reach this point (the kwargs are filtered first),
so the protected columns fall through to the identity. -/
def applyField (c : ChannelStrip) : CSFieldName → SqlVal → ChannelStrip
  | .fname, v => { c with name := v.asStr }
  | .fposition, v => { c with position := v.asInt }
  | .fcolor, v => { c with color := v.asStr }
  | .fmidi_cc_output, v => { c with midi_cc_output := v.asInt }
  | .fmidi_cc_vu_input, v => { c with midi_cc_vu_input := v.asInt }
  | .fmidi_cc_mute, v => { c with midi_cc_mute := v.asInt }
  | .fmidi_cc_solo, v => { c with midi_cc_solo := v.asInt }
  | .fmin_level, v => { c with min_level := v.asInt }
  | .fmax_level, v => { c with max_level := v.asInt }
  | .fcurrent_level, v => { c with current_level := v.asInt }
  | .fis_muted, v => { c with is_muted := v.asBool }
  | .fis_solo, v => { c with is_solo := v.asBool }
  | _, _ => c

/-- database.py `update_channel_strip`: keeps only kwargs whose key is
in `allowed_fields`, and if any remain runs one UPDATE applying them
in order to the row with the given id. -/
def update_channel_strip (channel_id : Nat)
    (kwargs : List (CSFieldName × SqlVal)) (db : DB) : DB :=
  let updates := kwargs.filter (fun kv => allowed_fields.contains kv.1)
  if updates.isEmpty then db
  else
    { db with channels := db.channels.map (fun c =>
        if c.id == channel_id then
          updates.foldl (fun c kv => applyField c kv.1 kv.2) c
        else c) }

/-- database.py `reorder_channel_strips` loop body: one UPDATE per
listed id, `SET position = i WHERE id = cid AND profile_id = pid`. -/
def reorder_aux (profile_id : Nat) : Nat → List Nat → List ChannelStrip → List ChannelStrip
  | _, [], cs => cs
  | pos, cid :: rest, cs =>
    reorder_aux profile_id (pos + 1) rest
      (cs.map (fun c =>
        if c.id == cid && c.profile_id == profile_id then
          { c with position := some (Int.ofNat pos) }
        else c))

/-- database.py `reorder_channel_strips`: positions are reassigned by
enumeration order of the given id list. -/
def reorder_channel_strips (profile_id : Nat) (channel_order : List Nat) (db : DB) : DB :=
  { db with channels := reorder_aux profile_id 0 channel_order db.channels }

/-! ### database.py: responsibility -/

/-- database.py `get_responsibility`: the responsibility row LEFT
JOINed with the holding user (for the display name). -/
def get_responsibility (db : DB) (profile_id : Nat) :
    Option (Responsibility × Option String) :=
  (db.responsibilities.find? (fun r => r.profile_id == profile_id)).map (fun r =>
    (r, r.user_id.bind (fun u =>
        (db.users.find? (fun x => x.id == u)).bind User.display_name)))

/-- database.py `take_responsibility`: unconditional UPDATE of the
profile responsibility row to the given user. -/
def take_responsibility (now : Nat) (profile_id user_id : Nat) (db : DB) : DB :=
  { db with responsibilities := db.responsibilities.map (fun r =>
      if r.profile_id == profile_id then
        { r with user_id := some user_id, taken_at := some now }
      else r) }

/-- database.py `drop_responsibility`: UPDATE to NULL guarded by
`WHERE profile_id AND user_id` — only the current holder row
matches. -/
def drop_responsibility (profile_id user_id : Nat) (db : DB) : DB :=
  { db with responsibilities := db.responsibilities.map (fun r =>
      if r.profile_id == profile_id && r.user_id == some user_id then
        { r with user_id := none, taken_at := none }
      else r) }

/-! ### app.py: request/response API routes -/

/-- Parse of the request role string against app.py lists
`['admin', 'technician', 'operator', 'guest']`; anything else
(including 'owner', garbage, or a missing field) is invalid. -/
def parse_assignable_role : Option String → Option Role
  | some "admin" => some Role.admin
  | some "technician" => some Role.technician
  | some "operator" => some Role.operator
  | some "guest" => some Role.guest
  | _ => none

/-- app.py `api_update_member_role`: permission gate, owner guard,
admin-vs-admin guard, role validation, no-promote-to-admin guard, then
the UPDATE plus a `member_updated` room broadcast (the broadcast is
not modelled; the claims about this route concern the decision and the
store). -/
def api_update_member_role (db : DB) (actor_id profile_id member_user_id : Nat)
    (req_role : Option String) : ApiResult × DB :=
  match db.profiles.find? (fun p => p.id == profile_id) with
  | none => (.err 404 "Profile not found", db)
  | some profile =>
    let my_role := get_user_role db profile_id actor_id
    if ¬ (my_role = some Role.owner ∨ my_role = some Role.admin) then
      (.err 403 "Insufficient permissions", db)
    else if member_user_id = profile.owner_id then
      (.err 403 "Cannot change owner role", db)
    else
      let target_role := get_user_role db profile_id member_user_id
      if my_role = some Role.admin ∧ target_role = some Role.admin then
        (.err 403 "Admins cannot change other admin roles", db)
      else
        match parse_assignable_role req_role with
        | none => (.err 400 "Invalid role", db)
        | some new_role =>
          if my_role = some Role.admin ∧ new_role = Role.admin then
            (.err 403 "Admins cannot promote to admin", db)
          else
            (.ok, update_member_role profile_id member_user_id new_role db)

/-- app.py `api_remove_member`: permission gate, owner guard,
admin-vs-admin guard, then the DELETE plus a `member_removed`
broadcast. -/
def api_remove_member (db : DB) (actor_id profile_id member_user_id : Nat) :
    ApiResult × DB :=
  match db.profiles.find? (fun p => p.id == profile_id) with
  | none => (.err 404 "Profile not found", db)
  | some profile =>
    let my_role := get_user_role db profile_id actor_id
    if ¬ (my_role = some Role.owner ∨ my_role = some Role.admin) then
      (.err 403 "Insufficient permissions", db)
    else if member_user_id = profile.owner_id then
      (.err 403 "Cannot remove the owner", db)
    else
      let target_role := get_user_role db profile_id member_user_id
      if my_role = some Role.admin ∧ target_role = some Role.admin then
        (.err 403 "Admins cannot remove other admins", db)
      else
        (.ok, remove_profile_member profile_id member_user_id db)

/-- app.py `api_create_invite`: permission gate, role validation with
default 'guest', no-admin-invites-by-admins guard, then the link
INSERT.  The fresh random token is passed in. -/
def api_create_invite (now : Nat) (token : String) (db : DB)
    (actor_id profile_id : Nat) (req_role : Option String) : ApiResult × DB :=
  let role := get_user_role db profile_id actor_id
  if ¬ (role = some Role.owner ∨ role = some Role.admin) then
    (.err 403 "Insufficient permissions", db)
  else
    let invite_role_str := req_role.getD "guest"
    match parse_assignable_role (some invite_role_str) with
    | none => (.err 400 "Invalid role", db)
    | some invite_role =>
      if role = some Role.admin ∧ invite_role = Role.admin then
        (.err 403 "Admins cannot create admin invites", db)
      else
        (.okWithToken token, create_activation_link now token profile_id invite_role actor_id db)

/-- The sparse JSON body of app.py `api_update_channel`: a field is
`none` when the key is absent from the request. -/
structure UpdateReq where
  name : Option String
  color : Option String
  midi_cc_output : Option Int
  midi_cc_vu_input : Option Int
  midi_cc_mute : Option Int
  midi_cc_solo : Option Int
  min_level : Option Int
  max_level : Option Int
deriving DecidableEq, Repr

/-- `data.get(key)` for a string-valued column: an absent key becomes
Python None, bound as SQL NULL. -/
def reqStr : Option String → SqlVal
  | none => .vnull
  | some s => .vstr s

/-- `data.get(key)` for an integer-valued column. -/
def reqInt : Option Int → SqlVal
  | none => .vnull
  | some n => .vint n

/-- app.py `api_update_channel`: looks up the channel, checks the role
is at least technician, then calls `update_channel_strip` passing all
eight configuration kwargs (with `data.get(...)`, i.e. None for the
keys the request did not send). -/
def api_update_channel (db : DB) (actor_id channel_id : Nat) (req : UpdateReq) :
    ApiResult × DB :=
  match db.channels.find? (fun c => c.id == channel_id) with
  | none => (.err 404 "Channel not found", db)
  | some channel =>
    if roleIn (get_user_role db channel.profile_id actor_id)
        [Role.owner, Role.admin, Role.technician] then
      (.ok, update_channel_strip channel_id
        [(.fname, reqStr req.name), (.fcolor, reqStr req.color),
         (.fmidi_cc_output, reqInt req.midi_cc_output),
         (.fmidi_cc_vu_input, reqInt req.midi_cc_vu_input),
         (.fmidi_cc_mute, reqInt req.midi_cc_mute),
         (.fmidi_cc_solo, reqInt req.midi_cc_solo),
         (.fmin_level, reqInt req.min_level),
         (.fmax_level, reqInt req.max_level)] db)
    else
      (.err 403 "Insufficient permissions", db)

/-- app.py `api_reorder_channels`: role gate then
`reorder_channel_strips` and a `channels_reordered` broadcast. -/
def api_reorder_channels (db : DB) (actor_id profile_id : Nat)
    (channel_order : List Nat) : ApiResult × DB :=
  if roleIn (get_user_role db profile_id actor_id)
      [Role.owner, Role.admin, Role.technician] then
    (.ok, reorder_channel_strips profile_id channel_order db)
  else
    (.err 403 "Insufficient permissions", db)

/-! ### app.py: Socket.IO event handlers -/

/-- app.py `handle_leave_profile`: guard on falsy ids, leave the room,
delete the presence entry, broadcast `user_left` to the room.  It does
not touch the responsibility record. -/
def handle_leave_profile (profile_id user_id : Nat) (st : AppState) :
    AppState × List (EmitTarget × ServerEvent) :=
  if profile_id == 0 || user_id == 0 then (st, [])
  else
    ({ st with online := st.online.filter (fun e =>
        !(e.profile_id == profile_id && e.user_id == user_id)) },
     [(EmitTarget.room, ServerEvent.user_left user_id)])

/-- app.py `handle_fader_change`: guard on missing payload fields,
look up the channel, require a role of at least operator (silently
returning otherwise), update the level and broadcast `fader_update` to
the room excluding the sender. -/
def handle_fader_change (data_channel_id : Option Nat) (data_level : Option Int)
    (data_user_id : Option Nat) (is_final : Bool) (db : DB) :
    DB × List (EmitTarget × ServerEvent) :=
  match data_channel_id, data_level with
  | some channel_id, some level =>
    match db.channels.find? (fun c => c.id == channel_id) with
    | none => (db, [])
    | some channel =>
      let role := data_user_id.bind (fun u => get_user_role db channel.profile_id u)
      if roleIn role [Role.owner, Role.admin, Role.technician, Role.operator] then
        (update_fader_level channel_id level db,
         [(EmitTarget.roomExceptSender,
           ServerEvent.fader_update channel_id level data_user_id is_final)])
      else (db, [])
  | _, _ => (db, [])

/-- app.py `handle_mute_toggle`: same pattern as the fader handler for
the mute flag. -/
def handle_mute_toggle (data_channel_id : Option Nat) (data_is_muted : Option Bool)
    (data_user_id : Option Nat) (db : DB) :
    DB × List (EmitTarget × ServerEvent) :=
  match data_channel_id, data_is_muted with
  | some channel_id, some is_muted =>
    match db.channels.find? (fun c => c.id == channel_id) with
    | none => (db, [])
    | some channel =>
      let role := data_user_id.bind (fun u => get_user_role db channel.profile_id u)
      if roleIn role [Role.owner, Role.admin, Role.technician, Role.operator] then
        (update_mute_state channel_id is_muted db,
         [(EmitTarget.roomExceptSender,
           ServerEvent.mute_update channel_id is_muted data_user_id)])
      else (db, [])
  | _, _ => (db, [])

/-- app.py `handle_solo_toggle`: same pattern as the fader handler for
the solo flag. -/
def handle_solo_toggle (data_channel_id : Option Nat) (data_is_solo : Option Bool)
    (data_user_id : Option Nat) (db : DB) :
    DB × List (EmitTarget × ServerEvent) :=
  match data_channel_id, data_is_solo with
  | some channel_id, some is_solo =>
    match db.channels.find? (fun c => c.id == channel_id) with
    | none => (db, [])
    | some channel =>
      let role := data_user_id.bind (fun u => get_user_role db channel.profile_id u)
      if roleIn role [Role.owner, Role.admin, Role.technician, Role.operator] then
        (update_solo_state channel_id is_solo db,
         [(EmitTarget.roomExceptSender,
           ServerEvent.solo_update channel_id is_solo data_user_id)])
      else (db, [])
  | _, _ => (db, [])

/-- app.py `handle_take_responsibility`: guard on falsy ids, require a
role of at least operator, then: if someone else truthily holds it and
`force` is not set, emit `confirm_take_responsibility` back to the
requester only; otherwise take it and broadcast
`responsibility_changed` to the room. -/
def handle_take_responsibility (now : Nat) (profile_id user_id : Nat)
    (display_name : Option String) (force : Bool) (db : DB) :
    DB × List (EmitTarget × ServerEvent) :=
  if profile_id == 0 || user_id == 0 then (db, [])
  else if !(roleIn (get_user_role db profile_id user_id)
      [Role.owner, Role.admin, Role.technician, Role.operator]) then (db, [])
  else
    match get_responsibility db profile_id with
    | some (current, current_display_name) =>
      if pyTruthyNat current.user_id && current.user_id != some user_id && !force then
        (db, [(EmitTarget.requester,
          ServerEvent.confirm_take_responsibility current.user_id current_display_name)])
      else
        (take_responsibility now profile_id user_id db,
         [(EmitTarget.room, ServerEvent.responsibility_changed (some user_id) display_name)])
    | none =>
      (take_responsibility now profile_id user_id db,
       [(EmitTarget.room, ServerEvent.responsibility_changed (some user_id) display_name)])

/-- app.py `handle_drop_responsibility`: guard on falsy ids, run the
holder-guarded UPDATE, then unconditionally broadcast
`responsibility_changed` with NULL user to the room. -/
def handle_drop_responsibility (profile_id user_id : Nat) (db : DB) :
    DB × List (EmitTarget × ServerEvent) :=
  if profile_id == 0 || user_id == 0 then (db, [])
  else
    (drop_responsibility profile_id user_id db,
     [(EmitTarget.room, ServerEvent.responsibility_changed none none)])

/-- Combined effect on one member row of the two role UPDATEs run by
`transfer_ownership` (demote the old owner, then promote the new
owner). -/
def transfer_member_update (profile_id old_owner_id new_owner_id : Nat)
    (m : Member) : Member :=
  let m1 := if m.profile_id == profile_id && m.user_id == old_owner_id then
    { m with role := Role.admin } else m
  if m1.profile_id == profile_id && m1.user_id == new_owner_id then
    { m1 with role := Role.owner } else m1

/-! ### Concrete fixtures used to evaluate the theorems -/

/-- A concrete channel strip of profile 5. -/
def exChannel : ChannelStrip :=
  { id := 1, profile_id := 5, name := some "Drums", position := some 0,
    color := some "white", midi_cc_output := some 0, midi_cc_vu_input := none,
    midi_cc_mute := none, midi_cc_solo := none, min_level := some 0,
    max_level := some 127, current_level := some 64, is_muted := some false,
    is_solo := some false, vu_level := some 0, state_version := 3 }

/-- A concrete store: profile 5 owned by user 1, with admins 2 and 3, a
guest 4, one pending guest invitation, one channel, and responsibility
currently held by user 1. -/
def exDB : DB :=
  { users := [{ id := 1, username := some "alice", display_name := some "Alice" },
              { id := 2, username := some "bob", display_name := some "Bob" },
              { id := 3, username := some "carol", display_name := some "Carol" },
              { id := 4, username := some "dave", display_name := some "Dave" }],
    profiles := [{ id := 5, name := "Studio A", slug := "studio-a", owner_id := 1 }],
    members := [{ profile_id := 5, user_id := 1, role := Role.owner, added_by := none },
                { profile_id := 5, user_id := 2, role := Role.admin, added_by := some 1 },
                { profile_id := 5, user_id := 3, role := Role.admin, added_by := some 1 },
                { profile_id := 5, user_id := 4, role := Role.guest, added_by := some 1 }],
    links := [{ id := 10, profile_id := 5, token := "tok", role := Role.guest,
                created_by := 1, expires_at := 100, used_by := none,
                used_at := none, canceled_at := none }],
    channels := [exChannel],
    responsibilities := [{ profile_id := 5, user_id := some 1, taken_at := some 2 }] }

/-- The concrete store with user 1 connected to the room of profile 5. -/
def exSt : AppState :=
  { db := exDB,
    online := [{ profile_id := 5, user_id := 1, sid := 11,
                 display_name := some "Alice", joined_at := 0 }] }

/-! ### Generic list helper lemmas -/

/-- A map whose function preserves a search predicate commutes with
`find?`. -/
theorem find?_map_congr {α : Type} (f : α → α) (p : α → Bool) (l : List α)
    (hp : ∀ x, p (f x) = p x) : (l.map f).find? p = (l.find? p).map f := by
  rw [List.find?_map]
  have hpf : p ∘ f = p := funext hp
  rw [hpf]

/-- Mapping a list is pointwise related to the original list. -/
theorem forall₂_map_self {α : Type} (R : α → α → Prop) (f : α → α) (l : List α)
    (h : ∀ x, R x (f x)) : List.Forall₂ R l (l.map f) := by
  rw [List.forall₂_map_right_iff, List.forall₂_same]
  intro x _
  exact h x

/-- A list that is pairwise related by a relation none of its element
pairs can satisfy has at most one element. -/
theorem length_le_one_of_pairwise_absurd {α : Type} (l : List α) (R : α → α → Prop)
    (hp : l.Pairwise R) (h : ∀ a ∈ l, ∀ b ∈ l, ¬ R a b) : l.length ≤ 1 := by
  match l with
  | [] => simp
  | [a] => simp
  | a :: b :: t =>
    exact absurd ((List.pairwise_cons.mp hp).1 b (by simp)) (h a (by simp) b (by simp))

/-! ### C1: activation links are redeemable at most once -/

/-- C1: after a successful `redeem_activation_link(token, user)`, any
further redemption attempt with the same token fails (the link is
reported no longer valid) and returns the store unchanged, so no new
member row is inserted and membership is unchanged. -/
theorem redeem_at_most_once (now now2 : Nat) (token : String) (u u2 : Nat) (db : DB)
    (h : ((redeem_activation_link now token u db).1).1 = true) :
    ((redeem_activation_link now2 token u2
        ((redeem_activation_link now token u db).2)).1).1 = false ∧
    (redeem_activation_link now2 token u2
        ((redeem_activation_link now token u db).2)).2 =
      (redeem_activation_link now token u db).2 := by
  cases hfl : db.links.find? (fun l => l.token == token) with
  | none =>
    exfalso
    simp [redeem_activation_link, get_activation_link, hfl,
      is_activation_link_valid] at h
  | some link =>
    cases hfp : db.profiles.find? (fun p => p.id == link.profile_id) with
    | none =>
      exfalso
      simp [redeem_activation_link, get_activation_link, hfl, hfp,
        is_activation_link_valid] at h
    | some profile =>
      have hga : get_activation_link db token = some (link, profile) := by
        simp [get_activation_link, hfl, hfp]
      by_cases hv : is_activation_link_valid now (some (link, profile)) = true
      · cases hr : get_user_role db link.profile_id u with
        | some r =>
          exfalso
          simp [redeem_activation_link, hga, hv, hr] at h
        | none =>
          have htok : link.token = token := by
            have h0 := List.find?_some hfl
            simpa using h0
          have hstep : (redeem_activation_link now token u db).2 =
              { db with
                members := db.members ++
                  [{ profile_id := link.profile_id, user_id := u,
                     role := link.role, added_by := some link.created_by }],
                links := db.links.map (fun x =>
                  if x.token == token then
                    { x with used_by := some u, used_at := some now }
                  else x) } := by
            simp [redeem_activation_link, hga, hv, hr]
          rw [hstep]
          have hp : ∀ x : ActivationLink,
              ((fun l => l.token == token)
                ((fun x => if x.token == token then
                    { x with used_by := some u, used_at := some now }
                  else x) x)) = ((fun l : ActivationLink => l.token == token) x) := by
            intro x
            by_cases hx : x.token = token <;> simp [hx]
          have hfl2 : (db.links.map (fun x =>
              if x.token == token then
                { x with used_by := some u, used_at := some now }
              else x)).find? (fun l => l.token == token) =
              some { link with used_by := some u, used_at := some now } := by
            rw [find?_map_congr _ _ _ hp, hfl]
            simp [htok]
          have hga2 : get_activation_link
              { db with
                members := db.members ++
                  [{ profile_id := link.profile_id, user_id := u,
                     role := link.role, added_by := some link.created_by }],
                links := db.links.map (fun x =>
                  if x.token == token then
                    { x with used_by := some u, used_at := some now }
                  else x) } token =
              some ({ link with used_by := some u, used_at := some now }, profile) := by
            show ((db.links.map (fun x =>
                if x.token == token then
                  { x with used_by := some u, used_at := some now }
                else x)).find? (fun l => l.token == token)).bind _ = _
            rw [hfl2]
            simp [hfp]
          constructor
          · simp only [redeem_activation_link]
            rw [hga2]
            simp [is_activation_link_valid]
          · simp only [redeem_activation_link]
            rw [hga2]
            simp [is_activation_link_valid]
      · exfalso
        simp [redeem_activation_link, hga, hv] at h

/-- C1 witness: on the concrete store, user 9 redeems the pending
invitation successfully, and the second attempt fails and leaves the
store unchanged. -/
theorem redeem_at_most_once_witness :
    ((redeem_activation_link 50 "tok" 9 exDB).1).1 = true ∧
    ((redeem_activation_link 60 "tok" 9
        ((redeem_activation_link 50 "tok" 9 exDB).2)).1).1 = false ∧
    (redeem_activation_link 60 "tok" 9
        ((redeem_activation_link 50 "tok" 9 exDB).2)).2 =
      (redeem_activation_link 50 "tok" 9 exDB).2 :=
  ⟨by decide, (redeem_at_most_once 50 60 "tok" 9 9 exDB (by decide)).1,
    (redeem_at_most_once 50 60 "tok" 9 9 exDB (by decide)).2⟩

/-! ### C2: ownership transfer preserves the single-owner invariant -/

/-- The two role UPDATEs of `transfer_ownership` behave per row as:
promote if the row is the new owner, demote if it is the old owner,
leave alone otherwise. -/
theorem transfer_member_update_cases (pid old new : Nat) (m : Member) :
    transfer_member_update pid old new m =
      if m.profile_id == pid && m.user_id == new then { m with role := Role.owner }
      else if m.profile_id == pid && m.user_id == old then { m with role := Role.admin }
      else m := by
  unfold transfer_member_update
  cases h1 : (m.profile_id == pid && m.user_id == old) with
  | false => simp
  | true =>
    show (if m.profile_id == pid && m.user_id == new then _ else _) = _
    cases h2 : (m.profile_id == pid && m.user_id == new) <;> simp

/-- The row update of `transfer_ownership` never changes the key
columns of a member row. -/
theorem transfer_member_update_keys (pid old new : Nat) (m : Member) :
    (transfer_member_update pid old new m).profile_id = m.profile_id ∧
    (transfer_member_update pid old new m).user_id = m.user_id := by
  rw [transfer_member_update_cases]
  cases h1 : (m.profile_id == pid && m.user_id == new) <;>
    cases h2 : (m.profile_id == pid && m.user_id == old) <;> simp

/-- A member table whose owner-role rows of a profile all name the
same user, and whose (profile_id, user_id) keys are pairwise distinct,
has at most one owner-role row for that profile. -/
theorem owner_filter_length_le_one (members : List Member) (pid own : Nat)
    (hpw : members.Pairwise (fun a b =>
      a.profile_id = b.profile_id → a.user_id ≠ b.user_id))
    (hall : ∀ m ∈ members, m.profile_id = pid → m.role = Role.owner →
      m.user_id = own) :
    (members.filter (fun m => m.profile_id == pid && m.role == Role.owner)).length ≤ 1 := by
  refine length_le_one_of_pairwise_absurd _ _
    (hpw.filter (fun m => m.profile_id == pid && m.role == Role.owner)) ?_
  intro a ha b hb hR
  have haq := List.of_mem_filter ha
  have hbq := List.of_mem_filter hb
  have ha2 := List.mem_of_mem_filter ha
  have hb2 := List.mem_of_mem_filter hb
  simp only [Bool.and_eq_true, beq_iff_eq] at haq hbq
  have hau := hall a ha2 haq.1 haq.2
  have hbu := hall b hb2 hbq.1 hbq.2
  exact hR (haq.1.trans hbq.1.symm) (hau.trans hbu.symm)

/-- An UPDATE that rewrites member rows without touching their
(profile_id, user_id) key preserves key uniqueness. -/
theorem pairwise_keys_of_map (f : Member → Member) (members : List Member)
    (hf : ∀ m, (f m).profile_id = m.profile_id ∧ (f m).user_id = m.user_id)
    (hpw : members.Pairwise (fun a b =>
      a.profile_id = b.profile_id → a.user_id ≠ b.user_id)) :
    (members.map f).Pairwise (fun a b =>
      a.profile_id = b.profile_id → a.user_id ≠ b.user_id) := by
  rw [List.pairwise_map]
  refine hpw.imp ?_
  intro a b hab hpp
  rw [(hf a).2, (hf b).2]
  exact hab ((hf a).1.symm.trans (hpp.trans (hf b).1))

/-- `redeem_activation_link` either leaves the store unchanged (any of
its failure paths) or appends exactly one member row carrying the role
of the link row it found, leaving the profile table unchanged. -/
theorem redeem_members_shape (now : Nat) (token : String) (u : Nat) (db : DB) :
    (redeem_activation_link now token u db).2 = db ∨
    ∃ link : ActivationLink, link ∈ db.links ∧
      (redeem_activation_link now token u db).2.members =
        db.members ++ [{ profile_id := link.profile_id, user_id := u,
                         role := link.role, added_by := some link.created_by }] ∧
      (redeem_activation_link now token u db).2.profiles = db.profiles := by
  cases hfl : db.links.find? (fun l => l.token == token) with
  | none =>
    left
    simp [redeem_activation_link, get_activation_link, hfl, is_activation_link_valid]
  | some link =>
    cases hfp : db.profiles.find? (fun p => p.id == link.profile_id) with
    | none =>
      left
      simp [redeem_activation_link, get_activation_link, hfl, hfp,
        is_activation_link_valid]
    | some p2 =>
      have hga : get_activation_link db token = some (link, p2) := by
        simp [get_activation_link, hfl, hfp]
      by_cases hv : is_activation_link_valid now (some (link, p2)) = true
      · cases hr : get_user_role db link.profile_id u with
        | some r =>
          left
          simp [redeem_activation_link, hga, hv, hr]
        | none =>
          right
          refine ⟨link, List.mem_of_find?_eq_some hfl, ?_, ?_⟩ <;>
            simp [redeem_activation_link, hga, hv, hr]
      · left
        simp [redeem_activation_link, hga, hv]

/-- C2: assuming the single-owner invariant (every owner-role member of
the profile is the profile owner) and key uniqueness of the member
table, the invariant is preserved by every modelled operation that
mutates membership: immediately after `transfer_ownership` the profile
row points at the new owner, every owner-role member row of the
profile is the new owner, there is at most one such row, the new owner
member row is promoted to owner, and the old owner member row (when
distinct from the new owner) is demoted to admin; the role strings
accepted by the member-role and invitation routes never parse to
owner, and `update_member_role` with any non-owner role,
`remove_profile_member`, `redeem_activation_link` (over a store whose
links never carry the owner role, the only kind the invite route
creates) and `create_profile` with a fresh id all keep the invariant
for the examined profile, while `create_profile` also establishes it
for the newly created profile. -/
theorem transfer_ownership_owner_invariant
    (db : DB) (pid new_owner : Nat) (prof : Profile)
    (hfind : db.profiles.find? (fun p => p.id == pid) = some prof)
    (hinv : ∀ m ∈ db.members, m.profile_id = pid → m.role = Role.owner →
      m.user_id = prof.owner_id)
    (hkey : db.members.Pairwise (fun a b =>
      a.profile_id = b.profile_id → a.user_id ≠ b.user_id)) :
    (transfer_ownership pid new_owner db).profiles.find? (fun p => p.id == pid) =
      some { prof with owner_id := new_owner } ∧
    (∀ m ∈ (transfer_ownership pid new_owner db).members,
        m.profile_id = pid → m.role = Role.owner → m.user_id = new_owner) ∧
    ((transfer_ownership pid new_owner db).members.filter
        (fun m => m.profile_id == pid && m.role == Role.owner)).length ≤ 1 ∧
    (∀ m ∈ db.members, m.profile_id = pid → m.user_id = new_owner →
        { m with role := Role.owner } ∈ (transfer_ownership pid new_owner db).members) ∧
    (∀ m ∈ db.members, m.profile_id = pid → m.user_id = prof.owner_id →
        new_owner ≠ prof.owner_id →
        { m with role := Role.admin } ∈ (transfer_ownership pid new_owner db).members) ∧
    (∀ req r, parse_assignable_role req = some r → r ≠ Role.owner) ∧
    (∀ pid2 target new_role, new_role ≠ Role.owner →
      (update_member_role pid2 target new_role db).profiles = db.profiles ∧
      (∀ m ∈ (update_member_role pid2 target new_role db).members,
        m.profile_id = pid → m.role = Role.owner → m.user_id = prof.owner_id) ∧
      ((update_member_role pid2 target new_role db).members.filter
        (fun m => m.profile_id == pid && m.role == Role.owner)).length ≤ 1) ∧
    (∀ pid2 target,
      (remove_profile_member pid2 target db).profiles = db.profiles ∧
      (∀ m ∈ (remove_profile_member pid2 target db).members,
        m.profile_id = pid → m.role = Role.owner → m.user_id = prof.owner_id) ∧
      ((remove_profile_member pid2 target db).members.filter
        (fun m => m.profile_id == pid && m.role == Role.owner)).length ≤ 1) ∧
    (∀ now2 tok u, (∀ l ∈ db.links, l.role ≠ Role.owner) →
      (redeem_activation_link now2 tok u db).2.profiles = db.profiles ∧
      (∀ m ∈ (redeem_activation_link now2 tok u db).2.members,
        m.profile_id = pid → m.role = Role.owner → m.user_id = prof.owner_id) ∧
      ((redeem_activation_link now2 tok u db).2.members.filter
        (fun m => m.profile_id == pid && m.role == Role.owner)).length ≤ 1) ∧
    (∀ npid nm sl own2, npid ≠ pid →
      (create_profile npid nm sl own2 db).2.profiles.find?
        (fun p => p.id == pid) = some prof ∧
      (∀ m ∈ (create_profile npid nm sl own2 db).2.members,
        m.profile_id = pid → m.role = Role.owner → m.user_id = prof.owner_id) ∧
      ((create_profile npid nm sl own2 db).2.members.filter
        (fun m => m.profile_id == pid && m.role == Role.owner)).length ≤ 1) ∧
    (∀ npid nm sl own2, (∀ p ∈ db.profiles, p.id ≠ npid) →
      (∀ m ∈ db.members, m.profile_id ≠ npid) →
      (create_profile npid nm sl own2 db).2.profiles.find?
        (fun p => p.id == npid) =
        some { id := npid, name := nm, slug := sl, owner_id := own2 } ∧
      (∀ m ∈ (create_profile npid nm sl own2 db).2.members,
        m.profile_id = npid → m.role = Role.owner → m.user_id = own2) ∧
      ((create_profile npid nm sl own2 db).2.members.filter
        (fun m => m.profile_id == npid && m.role == Role.owner)).length ≤ 1) := by
  have hpid : prof.id = pid := by
    have h0 := List.find?_some hfind
    simpa using h0
  have hmem : (transfer_ownership pid new_owner db).members =
      db.members.map (transfer_member_update pid prof.owner_id new_owner) := by
    simp only [transfer_ownership, hfind]
    exact List.map_map _ _ _
  have howner : ∀ m ∈ (transfer_ownership pid new_owner db).members,
      m.profile_id = pid → m.role = Role.owner → m.user_id = new_owner := by
    rw [hmem]
    intro m2 hm2 hp2 hr2
    obtain ⟨m, hm, hgm⟩ := List.mem_map.mp hm2
    rw [transfer_member_update_cases] at hgm
    cases hc2 : (m.profile_id == pid && m.user_id == new_owner) with
    | true =>
      rw [hc2] at hgm
      simp only [if_true] at hgm
      subst hgm
      have hc2b := hc2
      simp only [Bool.and_eq_true, beq_iff_eq] at hc2b
      simpa using hc2b.2
    | false =>
      rw [hc2] at hgm
      simp only [Bool.false_eq_true, if_false] at hgm
      cases hc1 : (m.profile_id == pid && m.user_id == prof.owner_id) with
      | true =>
        rw [hc1] at hgm
        simp only [if_true] at hgm
        subst hgm
        simp at hr2
      | false =>
        rw [hc1] at hgm
        simp only [Bool.false_eq_true, if_false] at hgm
        subst hgm
        have hu := hinv m hm hp2 hr2
        have : (m.profile_id == pid && m.user_id == prof.owner_id) = true := by
          simp [hp2, hu]
        rw [this] at hc1
        cases hc1
  refine ⟨?_, howner, ?_, ?_, ?_, ?_, ?_, ?_, ?_, ?_, ?_⟩
  · simp only [transfer_ownership, hfind]
    show (db.profiles.map (fun p =>
        if p.id == pid then { p with owner_id := new_owner } else p)).find?
        (fun p => p.id == pid) = _
    have hp : ∀ x : Profile,
        ((fun p : Profile => p.id == pid)
          ((fun p : Profile =>
            if p.id == pid then { p with owner_id := new_owner } else p) x)) =
        ((fun p : Profile => p.id == pid) x) := by
      intro x
      by_cases hx : x.id = pid <;> simp [hx]
    rw [find?_map_congr _ _ _ hp, hfind]
    simp [hpid]
  · have hpw : (transfer_ownership pid new_owner db).members.Pairwise
        (fun a b => a.profile_id = b.profile_id → a.user_id ≠ b.user_id) := by
      rw [hmem, List.pairwise_map]
      refine hkey.imp ?_
      intro a b hab hpp
      have hka := transfer_member_update_keys pid prof.owner_id new_owner a
      have hkb := transfer_member_update_keys pid prof.owner_id new_owner b
      rw [hka.2, hkb.2]
      exact hab (hka.1.symm.trans (hpp.trans hkb.1))
    have hpwf := hpw.filter (fun m => m.profile_id == pid && m.role == Role.owner)
    refine length_le_one_of_pairwise_absurd _ _ hpwf ?_
    intro a ha b hb hR
    have haq := List.of_mem_filter ha
    have hbq := List.of_mem_filter hb
    have ha2 := List.mem_of_mem_filter ha
    have hb2 := List.mem_of_mem_filter hb
    simp only [Bool.and_eq_true, beq_iff_eq] at haq hbq
    have hau := howner a ha2 haq.1 haq.2
    have hbu := howner b hb2 hbq.1 hbq.2
    exact hR (haq.1.trans hbq.1.symm) (hau.trans hbu.symm)
  · intro m hm hp hu
    rw [hmem]
    refine List.mem_map.mpr ⟨m, hm, ?_⟩
    rw [transfer_member_update_cases]
    simp [hp, hu]
  · intro m hm hp hu hne
    rw [hmem]
    refine List.mem_map.mpr ⟨m, hm, ?_⟩
    rw [transfer_member_update_cases]
    have hun : m.user_id ≠ new_owner := by
      rw [hu]
      exact fun h => hne h.symm
    have hcf : (m.profile_id == pid && m.user_id == new_owner) = false := by
      simp [hun]
    simp [hcf, hp, hu]
    exact fun h => hne h.symm
  · intro req r h
    unfold parse_assignable_role at h
    split at h <;> first
      | (injection h with h2 ; subst h2 ; decide)
      | injection h
  · intro pid2 target new_role hno
    have hall : ∀ m ∈ (update_member_role pid2 target new_role db).members,
        m.profile_id = pid → m.role = Role.owner → m.user_id = prof.owner_id := by
      intro m2 hm2 hp2 hr2
      obtain ⟨m, hm, hgm⟩ := List.mem_map.mp hm2
      by_cases hc : (m.profile_id == pid2 && m.user_id == target) = true
      · simp only [hc, if_true] at hgm
        subst hgm
        exact absurd hr2 hno
      · simp only [hc, Bool.false_eq_true, if_false] at hgm
        subst hgm
        exact hinv m hm hp2 hr2
    refine ⟨rfl, hall, ?_⟩
    refine owner_filter_length_le_one _ pid prof.owner_id ?_ hall
    refine pairwise_keys_of_map _ _ ?_ hkey
    intro m
    by_cases hc : (m.profile_id == pid2 && m.user_id == target) = true <;> simp [hc]
  · intro pid2 target
    have hall : ∀ m ∈ (remove_profile_member pid2 target db).members,
        m.profile_id = pid → m.role = Role.owner → m.user_id = prof.owner_id := by
      intro m2 hm2 hp2 hr2
      exact hinv m2 (List.mem_of_mem_filter hm2) hp2 hr2
    exact ⟨rfl, hall,
      owner_filter_length_le_one _ pid prof.owner_id (hkey.filter _) hall⟩
  · intro now2 tok u hlinks
    rcases redeem_members_shape now2 tok u db with hL | ⟨link, hlmem, hmems, hprofs⟩
    · rw [hL]
      exact ⟨rfl, hinv, owner_filter_length_le_one _ pid prof.owner_id hkey hinv⟩
    · have hrole_ne := hlinks link hlmem
      have hall : ∀ m ∈ (redeem_activation_link now2 tok u db).2.members,
          m.profile_id = pid → m.role = Role.owner → m.user_id = prof.owner_id := by
        intro m2 hm2 hp2 hr2
        rw [hmems] at hm2
        rcases List.mem_append.mp hm2 with h | h
        · exact hinv m2 h hp2 hr2
        · simp only [List.mem_singleton] at h
          subst h
          exact absurd hr2 hrole_ne
      refine ⟨hprofs, hall, ?_⟩
      rw [hmems, List.filter_append]
      have hf2 : ∀ m : Member, m.role ≠ Role.owner →
          ([m].filter (fun m => m.profile_id == pid && m.role == Role.owner)) = [] := by
        intro m hm
        simp [hm]
      rw [hf2 _ hrole_ne, List.append_nil]
      exact owner_filter_length_le_one _ pid prof.owner_id hkey hinv
  · intro npid nm sl own2 hne2
    have hCm : (create_profile npid nm sl own2 db).2.members =
        db.members ++
          [{ profile_id := npid, user_id := own2, role := Role.owner, added_by := none }] := rfl
    have hCp : (create_profile npid nm sl own2 db).2.profiles =
        db.profiles ++ [{ id := npid, name := nm, slug := sl, owner_id := own2 }] := rfl
    refine ⟨?_, ?_, ?_⟩
    · rw [hCp, List.find?_append, hfind]
      rfl
    · intro m2 hm2 hp2 hr2
      rw [hCm] at hm2
      rcases List.mem_append.mp hm2 with h | h
      · exact hinv m2 h hp2 hr2
      · simp only [List.mem_singleton] at h
        subst h
        exact absurd hp2 hne2
    · rw [hCm, List.filter_append]
      have hf2 : ∀ m : Member, m.profile_id ≠ pid →
          ([m].filter (fun m => m.profile_id == pid && m.role == Role.owner)) = [] := by
        intro m hm
        simp [hm]
      rw [hf2 _ hne2, List.append_nil]
      exact owner_filter_length_le_one _ pid prof.owner_id hkey hinv
  · intro npid nm sl own2 hfp hfm
    have hCm : (create_profile npid nm sl own2 db).2.members =
        db.members ++
          [{ profile_id := npid, user_id := own2, role := Role.owner, added_by := none }] := rfl
    have hCp : (create_profile npid nm sl own2 db).2.profiles =
        db.profiles ++ [{ id := npid, name := nm, slug := sl, owner_id := own2 }] := rfl
    refine ⟨?_, ?_, ?_⟩
    · rw [hCp, List.find?_append]
      have hnone : db.profiles.find? (fun p => p.id == npid) = none := by
        rw [List.find?_eq_none]
        intro p hp
        simp [hfp p hp]
      rw [hnone]
      simp
    · intro m2 hm2 hp2 hr2
      rw [hCm] at hm2
      rcases List.mem_append.mp hm2 with h | h
      · exact absurd hp2 (hfm m2 h)
      · simp only [List.mem_singleton] at h
        subst h
        rfl
    · rw [hCm, List.filter_append]
      have h1 : db.members.filter
          (fun m => m.profile_id == npid && m.role == Role.owner) = [] := by
        rw [List.filter_eq_nil_iff]
        intro m hm
        simp [hfm m hm]
      rw [h1]
      simp

/-- C2 witness: on the concrete store, transferring the profile from
owner 1 to admin 2 satisfies the invariant conclusions, and a role
update, a member removal, an invitation redemption and a fresh profile
creation each leave at most one owner-role row for the profile they
touch. -/
theorem transfer_ownership_owner_invariant_witness :
    (transfer_ownership 5 2 exDB).profiles.find? (fun p => p.id == 5) =
      some { id := 5, name := "Studio A", slug := "studio-a", owner_id := 2 } ∧
    ((transfer_ownership 5 2 exDB).members.filter
        (fun m => m.profile_id == 5 && m.role == Role.owner)).length ≤ 1 ∧
    ((update_member_role 5 4 Role.operator exDB).members.filter
        (fun m => m.profile_id == 5 && m.role == Role.owner)).length ≤ 1 ∧
    ((remove_profile_member 5 3 exDB).members.filter
        (fun m => m.profile_id == 5 && m.role == Role.owner)).length ≤ 1 ∧
    ((redeem_activation_link 50 "tok" 9 exDB).2.members.filter
        (fun m => m.profile_id == 5 && m.role == Role.owner)).length ≤ 1 ∧
    ((create_profile 6 "Studio B" "studio-b" 2 exDB).2.members.filter
        (fun m => m.profile_id == 6 && m.role == Role.owner)).length ≤ 1 := by
  have h := transfer_ownership_owner_invariant exDB 5 2
    { id := 5, name := "Studio A", slug := "studio-a", owner_id := 1 }
    (by decide) (by decide) (by decide)
  refine ⟨h.1, h.2.2.1, ?_, ?_, ?_, ?_⟩
  · exact (h.2.2.2.2.2.2.1 5 4 Role.operator (by decide)).2.2
  · exact (h.2.2.2.2.2.2.2.1 5 3).2.2
  · exact (h.2.2.2.2.2.2.2.2.1 50 "tok" 9 (by decide)).2.2
  · exact (h.2.2.2.2.2.2.2.2.2.2 6 "Studio B" "studio-b" 2
      (by decide) (by decide)).2.2

/-! ### C3: state_version arithmetic of the four channel mutations -/

/-- C3: pointwise over the channel table, one call to
`update_fader_level`, `update_mute_state` or `update_solo_state` bumps
`state_version` of the addressed channel by exactly one and each
touches only its own value column (they are independent of each
other), while `update_vu_level` writes `vu_level` and leaves
`state_version` unchanged; rows with a different id are untouched by
all four. -/
theorem channel_mutation_state_version (db : DB) (cid : Nat) (lv vu : Int)
    (bm bs : Bool) :
    List.Forall₂ (fun c c2 =>
        (c.id = cid → c2.state_version = c.state_version + 1 ∧
          c2.current_level = some lv ∧ c2.is_muted = c.is_muted ∧
          c2.is_solo = c.is_solo ∧ c2.vu_level = c.vu_level ∧
          c2.name = c.name ∧ c2.position = c.position ∧
          c2.profile_id = c.profile_id) ∧
        (c.id ≠ cid → c2 = c))
      db.channels (update_fader_level cid lv db).channels ∧
    List.Forall₂ (fun c c2 =>
        (c.id = cid → c2.state_version = c.state_version + 1 ∧
          c2.is_muted = some bm ∧ c2.current_level = c.current_level ∧
          c2.is_solo = c.is_solo ∧ c2.vu_level = c.vu_level ∧
          c2.name = c.name ∧ c2.position = c.position ∧
          c2.profile_id = c.profile_id) ∧
        (c.id ≠ cid → c2 = c))
      db.channels (update_mute_state cid bm db).channels ∧
    List.Forall₂ (fun c c2 =>
        (c.id = cid → c2.state_version = c.state_version + 1 ∧
          c2.is_solo = some bs ∧ c2.current_level = c.current_level ∧
          c2.is_muted = c.is_muted ∧ c2.vu_level = c.vu_level ∧
          c2.name = c.name ∧ c2.position = c.position ∧
          c2.profile_id = c.profile_id) ∧
        (c.id ≠ cid → c2 = c))
      db.channels (update_solo_state cid bs db).channels ∧
    List.Forall₂ (fun c c2 =>
        (c.id = cid → c2.state_version = c.state_version ∧
          c2.vu_level = some vu ∧ c2.current_level = c.current_level ∧
          c2.is_muted = c.is_muted ∧ c2.is_solo = c.is_solo ∧
          c2.name = c.name ∧ c2.position = c.position ∧
          c2.profile_id = c.profile_id) ∧
        (c.id ≠ cid → c2 = c))
      db.channels (update_vu_level cid vu db).channels := by
  refine ⟨?_, ?_, ?_, ?_⟩ <;>
    · apply forall₂_map_self
      intro c
      constructor
      · intro hc
        simp [hc]
      · intro hc
        simp [hc]

/-! ### C4: the take_responsibility transition table -/

/-- C4 counterexample: responsibility for profile 5 is held by user 1;
user 1 calls take again without force.  The claim says this is a
no-op success with no state change and no broadcast, but the handler
re-takes (refreshing `taken_at` from 2 to the current instant 5) and
broadcasts `responsibility_changed` to the whole room. -/
theorem handle_take_same_user_counterexample :
    (handle_take_responsibility 5 5 1 (some "Alice") false exDB).2 =
      [(EmitTarget.room, ServerEvent.responsibility_changed (some 1) (some "Alice"))] ∧
    (handle_take_responsibility 5 5 1 (some "Alice") false exDB).1.responsibilities =
      [{ profile_id := 5, user_id := some 1, taken_at := some 5 }] ∧
    exDB.responsibilities =
      [{ profile_id := 5, user_id := some 1, taken_at := some 2 }] := by
  refine ⟨?_, ?_, ?_⟩ <;> rfl

/-- C4 amended: `take(profile, user, force)` behaves as claimed in the
unclaimed, held-by-other-without-force and forced cases, except that
the held-by-the-same-user case is not a silent no-op: it re-takes
(updating `taken_at`) and broadcasts exactly like the unclaimed case.
The confirmation case emits only to the requester and mutates
nothing. -/
theorem handle_take_responsibility_transitions
    (now pid uid : Nat) (dn : Option String) (force : Bool) (db : DB)
    (r : Responsibility)
    (h1 : pid ≠ 0) (h2 : uid ≠ 0)
    (hrole : roleIn (get_user_role db pid uid)
      [Role.owner, Role.admin, Role.technician, Role.operator] = true)
    (hr : db.responsibilities.find? (fun x => x.profile_id == pid) = some r) :
    (pyTruthyNat r.user_id = false ∨ r.user_id = some uid ∨ force = true →
      handle_take_responsibility now pid uid dn force db =
        (take_responsibility now pid uid db,
         [(EmitTarget.room, ServerEvent.responsibility_changed (some uid) dn)])) ∧
    (∀ o, r.user_id = some o → o ≠ 0 → o ≠ uid → force = false →
      handle_take_responsibility now pid uid dn force db =
        (db, [(EmitTarget.requester,
          ServerEvent.confirm_take_responsibility (some o)
            ((db.users.find? (fun x => x.id == o)).bind User.display_name))])) ∧
    (take_responsibility now pid uid db).responsibilities.find?
        (fun x => x.profile_id == pid) =
      some { r with user_id := some uid, taken_at := some now } := by
  have hguard : (pid == 0 || uid == 0) = false := by
    simp [h1, h2]
  have hg : get_responsibility db pid =
      some (r, r.user_id.bind (fun u =>
        (db.users.find? (fun x => x.id == u)).bind User.display_name)) := by
    simp [get_responsibility, hr]
  refine ⟨?_, ?_, ?_⟩
  · intro hcase
    have hcond : (pyTruthyNat r.user_id && r.user_id != some uid && !force) = false := by
      rcases hcase with h | h | h
      · simp [h]
      · simp [h]
      · simp [h]
    simp only [handle_take_responsibility, hguard, Bool.false_eq_true, if_false,
      hrole, Bool.not_true, hg, hcond]
  · intro o ho hne0 hneu hff
    have hcond : (pyTruthyNat r.user_id && r.user_id != some uid && !force) = true := by
      simp [ho, pyTruthyNat, hne0, hneu, hff]
    simp only [handle_take_responsibility, hguard, Bool.false_eq_true, if_false,
      hrole, Bool.not_true, hg, hcond, if_true, ho]
    simp [ho]
    refine ⟨?_, hneu, hff⟩
    simp [pyTruthyNat, hne0]
  · show ((db.responsibilities.map (fun x =>
        if x.profile_id == pid then
          { x with user_id := some uid, taken_at := some now }
        else x)).find? (fun x => x.profile_id == pid)) = _
    have hp : ∀ x : Responsibility,
        ((fun x : Responsibility => x.profile_id == pid)
          ((fun x : Responsibility =>
            if x.profile_id == pid then
              { x with user_id := some uid, taken_at := some now }
            else x) x)) =
        ((fun x : Responsibility => x.profile_id == pid) x) := by
      intro x
      by_cases hx : x.profile_id = pid <;> simp [hx]
    rw [find?_map_congr _ _ _ hp, hr]
    have hrp : r.profile_id = pid := by
      have h0 := List.find?_some hr
      simpa using h0
    simp [hrp]

/-- C4 witness: on the concrete store (held by user 1), user 1 taking
again re-takes and broadcasts, while user 2 taking without force only
receives the confirmation request and mutates nothing. -/
theorem handle_take_responsibility_transitions_witness :
    (handle_take_responsibility 5 5 1 (some "Alice") false exDB =
      (take_responsibility 5 5 1 exDB,
       [(EmitTarget.room, ServerEvent.responsibility_changed (some 1) (some "Alice"))])) ∧
    (handle_take_responsibility 5 5 2 (some "Bob") false exDB =
      (exDB, [(EmitTarget.requester,
        ServerEvent.confirm_take_responsibility (some 1)
          ((exDB.users.find? (fun x => x.id == 1)).bind User.display_name))])) := by
  constructor
  · exact (handle_take_responsibility_transitions 5 5 1 (some "Alice") false exDB
      { profile_id := 5, user_id := some 1, taken_at := some 2 }
      (by decide) (by decide) (by decide) (by decide)).1 (Or.inr (Or.inl rfl))
  · exact (handle_take_responsibility_transitions 5 5 2 (some "Bob") false exDB
      { profile_id := 5, user_id := some 1, taken_at := some 2 }
      (by decide) (by decide) (by decide) (by decide)).2.1 1 rfl
      (by decide) (by decide) rfl

/-! ### C5: leave_profile does not perform the implicit drop -/

/-- C5 counterexample: user 1 currently holds responsibility for
profile 5 and leaves the room.  The claim says leave additionally sets
responsibility to Unclaimed and broadcasts the responsibility change
like the disconnect path does, but the handler leaves the store
untouched (user 1 still holds responsibility) and emits only
`user_left`. -/
theorem handle_leave_no_drop_counterexample :
    (handle_leave_profile 5 1 exSt).1.db = exSt.db ∧
    (handle_leave_profile 5 1 exSt).1.db.responsibilities =
      [{ profile_id := 5, user_id := some 1, taken_at := some 2 }] ∧
    (handle_leave_profile 5 1 exSt).2 =
      [(EmitTarget.room, ServerEvent.user_left 1)] := by
  refine ⟨?_, ?_, ?_⟩ <;> rfl

/-- C5 amended: `leave(profile, user)` removes the presence entry and
broadcasts `user_left`, but never touches the database — in
particular the responsibility record stays exactly as it was even when
the leaving user is the current holder, and no
`responsibility_changed` event is emitted (only the disconnect path
performs the implicit drop). -/
theorem handle_leave_profile_behavior (pid uid : Nat) (st : AppState)
    (h1 : pid ≠ 0) (h2 : uid ≠ 0) :
    (handle_leave_profile pid uid st).1.db = st.db ∧
    (handle_leave_profile pid uid st).1.online =
      st.online.filter (fun e => !(e.profile_id == pid && e.user_id == uid)) ∧
    (handle_leave_profile pid uid st).2 =
      [(EmitTarget.room, ServerEvent.user_left uid)] ∧
    get_responsibility (handle_leave_profile pid uid st).1.db pid =
      get_responsibility st.db pid := by
  have hguard : (pid == 0 || uid == 0) = false := by
    simp [h1, h2]
  refine ⟨?_, ?_, ?_, ?_⟩ <;> simp [handle_leave_profile, hguard]

/-- C5 witness: the amended behavior evaluated on the concrete state
where the holder leaves. -/
theorem handle_leave_profile_behavior_witness :
    (handle_leave_profile 5 1 exSt).1.db = exSt.db ∧
    (handle_leave_profile 5 1 exSt).2 =
      [(EmitTarget.room, ServerEvent.user_left 1)] := by
  have h := handle_leave_profile_behavior 5 1 exSt (by decide) (by decide)
  exact ⟨h.1, h.2.2.1⟩

/-! ### C6: drop_responsibility by a non-holder -/

/-- C6 counterexample: responsibility for profile 5 is held by user 1
and user 2 calls drop.  The record is indeed unchanged, but contrary
to the claim a `responsibility_changed` event with NULL user is still
broadcast to the room. -/
theorem handle_drop_nonholder_counterexample :
    (handle_drop_responsibility 5 2 exDB).1 = exDB ∧
    (handle_drop_responsibility 5 2 exDB).2 =
      [(EmitTarget.room, ServerEvent.responsibility_changed none none)] := by
  refine ⟨?_, ?_⟩ <;> rfl

/-- C6 amended: drop by a non-holder leaves every responsibility row
(and the rest of the store) unchanged, and drop by the holder clears
the row — but in both cases the handler broadcasts
`responsibility_changed` with NULL user/display_name to the room, so
the room also hears the event when nothing changed. -/
theorem handle_drop_responsibility_behavior (pid uid : Nat) (db : DB)
    (h1 : pid ≠ 0) (h2 : uid ≠ 0) :
    (handle_drop_responsibility pid uid db).2 =
      [(EmitTarget.room, ServerEvent.responsibility_changed none none)] ∧
    List.Forall₂ (fun r r2 =>
        (r.profile_id = pid → r.user_id = some uid →
          r2 = { r with user_id := none, taken_at := none }) ∧
        (¬(r.profile_id = pid ∧ r.user_id = some uid) → r2 = r))
      db.responsibilities (handle_drop_responsibility pid uid db).1.responsibilities ∧
    (handle_drop_responsibility pid uid db).1.members = db.members ∧
    (handle_drop_responsibility pid uid db).1.channels = db.channels := by
  have hguard : (pid == 0 || uid == 0) = false := by
    simp [h1, h2]
  have hstep : handle_drop_responsibility pid uid db =
      (drop_responsibility pid uid db,
       [(EmitTarget.room, ServerEvent.responsibility_changed none none)]) := by
    simp [handle_drop_responsibility, hguard]
  rw [hstep]
  refine ⟨rfl, ?_, rfl, rfl⟩
  apply forall₂_map_self
  intro r
  constructor
  · intro hp hu
    simp [hp, hu]
  · intro hn
    have hc : (r.profile_id == pid && r.user_id == some uid) = false := by
      rcases not_and_or.mp hn with h | h <;> simp [h]
    simp [hc]

/-- C6 witness: the amended behavior evaluated with a non-holder
dropping on the concrete store. -/
theorem handle_drop_responsibility_behavior_witness :
    (handle_drop_responsibility 5 2 exDB).2 =
      [(EmitTarget.room, ServerEvent.responsibility_changed none none)] ∧
    (handle_drop_responsibility 5 2 exDB).1.members = exDB.members := by
  have h := handle_drop_responsibility_behavior 5 2 exDB (by decide) (by decide)
  exact ⟨h.1, h.2.2.1⟩

/-! ### C7: real-time permission violations are dropped silently -/

/-- C7 counterexample: user 4 is a member with role guest (below
operator) and sends a fader_change for channel 1.  As claimed, no
state is mutated and nothing is broadcast — but contrary to the claim
no permission-denied outcome is reported back either: the emitted
event list is empty, the violation is silently ignored. -/
theorem realtime_permission_counterexample :
    handle_fader_change (some 1) (some 90) (some 4) false exDB = (exDB, []) ∧
    get_user_role exDB exChannel.profile_id 4 = some Role.guest := by
  refine ⟨?_, ?_⟩ <;> rfl

/-- C7 amended: when the sender of a fader_change, mute_toggle or
solo_toggle is not a member or has a role below operator, the handler
mutates nothing, broadcasts nothing and returns normally (no
exception), reporting nothing back to the sender: the violation is
silently dropped rather than answered with a permission-denied
outcome. -/
theorem realtime_handlers_deny_silently (db : DB) (cid : Nat) (lv : Int)
    (bm bs fin : Bool) (uid : Option Nat) (ch : ChannelStrip)
    (hch : db.channels.find? (fun c => c.id == cid) = some ch)
    (hrole : roleIn (uid.bind (fun u => get_user_role db ch.profile_id u))
      [Role.owner, Role.admin, Role.technician, Role.operator] = false) :
    handle_fader_change (some cid) (some lv) uid fin db = (db, []) ∧
    handle_mute_toggle (some cid) (some bm) uid db = (db, []) ∧
    handle_solo_toggle (some cid) (some bs) uid db = (db, []) := by
  refine ⟨?_, ?_, ?_⟩
  · simp [handle_fader_change, hch, hrole]
  · simp [handle_mute_toggle, hch, hrole]
  · simp [handle_solo_toggle, hch, hrole]

/-- C7 witness: the amended behavior evaluated for the concrete guest
sender on all three handlers. -/
theorem realtime_handlers_deny_silently_witness :
    handle_fader_change (some 1) (some 90) (some 4) false exDB = (exDB, []) ∧
    handle_mute_toggle (some 1) (some true) (some 4) exDB = (exDB, []) ∧
    handle_solo_toggle (some 1) (some true) (some 4) exDB = (exDB, []) :=
  realtime_handlers_deny_silently exDB 1 90 true true false (some 4) exChannel
    (by decide) (by decide)

/-! ### C8: admin restrictions in member management and invitations -/

/-- C8: an admin actor is denied (HTTP 403, store unchanged) when
changing another admin's role, when assigning the admin role, when
removing another admin, and when creating an admin-level invitation;
and for every actor, targeting the profile owner through the role or
removal route is denied. -/
theorem member_management_admin_restrictions
    (db : DB) (actor pid target : Nat) (req : Option String) (prof : Profile)
    (now : Nat) (tok : String)
    (hprof : db.profiles.find? (fun p => p.id == pid) = some prof) :
    (get_user_role db pid actor = some Role.admin →
      get_user_role db pid target = some Role.admin →
      ∃ msg, api_update_member_role db actor pid target req =
        (ApiResult.err 403 msg, db)) ∧
    (get_user_role db pid actor = some Role.admin → req = some "admin" →
      ∃ msg, api_update_member_role db actor pid target req =
        (ApiResult.err 403 msg, db)) ∧
    (get_user_role db pid actor = some Role.admin →
      get_user_role db pid target = some Role.admin →
      ∃ msg, api_remove_member db actor pid target = (ApiResult.err 403 msg, db)) ∧
    (get_user_role db pid actor = some Role.admin →
      ∃ msg, api_create_invite now tok db actor pid (some "admin") =
        (ApiResult.err 403 msg, db)) ∧
    (target = prof.owner_id →
      ∃ msg, api_update_member_role db actor pid target req =
        (ApiResult.err 403 msg, db)) ∧
    (target = prof.owner_id →
      ∃ msg, api_remove_member db actor pid target = (ApiResult.err 403 msg, db)) := by
  refine ⟨?_, ?_, ?_, ?_, ?_, ?_⟩
  · intro ha ht
    by_cases ho : target = prof.owner_id
    · exact ⟨"Cannot change owner role",
        by simp [api_update_member_role, hprof, ha, ho]⟩
    · exact ⟨"Admins cannot change other admin roles",
        by simp [api_update_member_role, hprof, ha, ht, ho]⟩
  · intro ha hreq
    by_cases ho : target = prof.owner_id
    · exact ⟨"Cannot change owner role",
        by simp [api_update_member_role, hprof, ha, ho]⟩
    · by_cases ht : get_user_role db pid target = some Role.admin
      · exact ⟨"Admins cannot change other admin roles",
          by simp [api_update_member_role, hprof, ha, ht, ho]⟩
      · exact ⟨"Admins cannot promote to admin",
          by simp [api_update_member_role, hprof, ha, ht, ho, hreq,
            parse_assignable_role]⟩
  · intro ha ht
    by_cases ho : target = prof.owner_id
    · exact ⟨"Cannot remove the owner",
        by simp [api_remove_member, hprof, ha, ho]⟩
    · exact ⟨"Admins cannot remove other admins",
        by simp [api_remove_member, hprof, ha, ht, ho]⟩
  · intro ha
    exact ⟨"Admins cannot create admin invites",
      by simp [api_create_invite, ha, parse_assignable_role]⟩
  · intro ho
    by_cases hmy : get_user_role db pid actor = some Role.owner ∨
        get_user_role db pid actor = some Role.admin
    · exact ⟨"Cannot change owner role",
        by simp [api_update_member_role, hprof, hmy, ho]⟩
    · exact ⟨"Insufficient permissions",
        by simp [api_update_member_role, hprof, hmy]⟩
  · intro ho
    by_cases hmy : get_user_role db pid actor = some Role.owner ∨
        get_user_role db pid actor = some Role.admin
    · exact ⟨"Cannot remove the owner",
        by simp [api_remove_member, hprof, hmy, ho]⟩
    · exact ⟨"Insufficient permissions",
        by simp [api_remove_member, hprof, hmy]⟩

/-- C8 witness: the six denials evaluated on the concrete store
(actor 2 and target 3 are admins, user 1 is the owner, user 4 is a
guest actor targeting the owner). -/
theorem member_management_admin_restrictions_witness :
    (∃ msg, api_update_member_role exDB 2 5 3 (some "guest") =
      (ApiResult.err 403 msg, exDB)) ∧
    (∃ msg, api_update_member_role exDB 2 5 4 (some "admin") =
      (ApiResult.err 403 msg, exDB)) ∧
    (∃ msg, api_remove_member exDB 2 5 3 = (ApiResult.err 403 msg, exDB)) ∧
    (∃ msg, api_create_invite 0 "t" exDB 2 5 (some "admin") =
      (ApiResult.err 403 msg, exDB)) ∧
    (∃ msg, api_update_member_role exDB 4 5 1 (some "guest") =
      (ApiResult.err 403 msg, exDB)) ∧
    (∃ msg, api_remove_member exDB 4 5 1 = (ApiResult.err 403 msg, exDB)) := by
  have hprof : exDB.profiles.find? (fun p => p.id == 5) =
      some { id := 5, name := "Studio A", slug := "studio-a", owner_id := 1 } := by
    decide
  refine ⟨?_, ?_, ?_, ?_, ?_, ?_⟩
  · exact (member_management_admin_restrictions exDB 2 5 3 (some "guest") _ 0 "t"
      hprof).1 (by decide) (by decide)
  · exact (member_management_admin_restrictions exDB 2 5 4 (some "admin") _ 0 "t"
      hprof).2.1 (by decide) rfl
  · exact (member_management_admin_restrictions exDB 2 5 3 none _ 0 "t"
      hprof).2.2.1 (by decide) (by decide)
  · exact (member_management_admin_restrictions exDB 2 5 3 none _ 0 "t"
      hprof).2.2.2.1 (by decide)
  · exact (member_management_admin_restrictions exDB 4 5 1 (some "guest") _ 0 "t"
      hprof).2.2.2.2.1 rfl
  · exact (member_management_admin_restrictions exDB 4 5 1 none _ 0 "t"
      hprof).2.2.2.2.2 rfl

/-! ### C9: sparse channel updates through the API -/

/-- Round trip of a string request value through the SQL binding. -/
theorem reqStr_asStr (x : Option String) : (reqStr x).asStr = x := by
  cases x <;> rfl

/-- Round trip of an integer request value through the SQL binding. -/
theorem reqInt_asInt (x : Option Int) : (reqInt x).asInt = x := by
  cases x <;> rfl

/-- One UPDATE assignment never touches id, profile_id, vu_level or
state_version, whatever the field name and value are. -/
theorem applyField_preserves (c : ChannelStrip) (f : CSFieldName) (v : SqlVal) :
    (applyField c f v).state_version = c.state_version ∧
    (applyField c f v).profile_id = c.profile_id ∧
    (applyField c f v).vu_level = c.vu_level ∧
    (applyField c f v).id = c.id := by
  cases f <;> simp [applyField]

/-- A chain of UPDATE assignments never touches id, profile_id,
vu_level or state_version. -/
theorem foldl_applyField_preserves (l : List (CSFieldName × SqlVal))
    (c : ChannelStrip) :
    (l.foldl (fun c kv => applyField c kv.1 kv.2) c).state_version = c.state_version ∧
    (l.foldl (fun c kv => applyField c kv.1 kv.2) c).profile_id = c.profile_id ∧
    (l.foldl (fun c kv => applyField c kv.1 kv.2) c).vu_level = c.vu_level ∧
    (l.foldl (fun c kv => applyField c kv.1 kv.2) c).id = c.id := by
  induction l generalizing c with
  | nil => exact ⟨rfl, rfl, rfl, rfl⟩
  | cons kv rest ih =>
    have h1 := applyField_preserves c kv.1 kv.2
    have h2 := ih (applyField c kv.1 kv.2)
    simp only [List.foldl_cons]
    exact ⟨h2.1.trans h1.1, h2.2.1.trans h1.2.1,
      h2.2.2.1.trans h1.2.2.1, h2.2.2.2.trans h1.2.2.2⟩

/-- C9 counterexample: channel 1 has name 'Drums', and technician-level
user 2 sends an update request that specifies only the color.  The
claim says unspecified fields keep their prior stored value, but the
route passes every configuration key with None for absent ones, so the
name (and the previously set midi_cc_output, min_level, max_level)
are overwritten with NULL. -/
theorem api_update_channel_nulls_counterexample :
    exChannel.name = some "Drums" ∧
    (api_update_channel exDB 2 1
        { name := none, color := some "red", midi_cc_output := none,
          midi_cc_vu_input := none, midi_cc_mute := none, midi_cc_solo := none,
          min_level := none, max_level := none }).2.channels =
      [{ exChannel with
          name := none, color := some "red",
          midi_cc_output := none, min_level := none, max_level := none }] := by
  refine ⟨rfl, ?_⟩
  decide

/-- C9 amended: the update route only ever writes the eight permitted
configuration columns — position, current_level, is_muted, is_solo,
vu_level, state_version, profile_id and id are unchanged, and other
rows are untouched — but it writes all eight on every request: a
field present in the request gets the request value and a field absent
from the request is overwritten with NULL rather than keeping its
prior stored value.  The store-level `update_channel_strip` itself
leaves fields whose key is absent from its kwargs untouched and never
changes state_version, profile_id, vu_level or id for any kwargs. -/
theorem api_update_channel_behavior (db : DB) (actor cid : Nat) (req : UpdateReq)
    (ch : ChannelStrip)
    (hch : db.channels.find? (fun c => c.id == cid) = some ch)
    (hrole : roleIn (get_user_role db ch.profile_id actor)
      [Role.owner, Role.admin, Role.technician] = true) :
    (api_update_channel db actor cid req).1 = ApiResult.ok ∧
    List.Forall₂ (fun c c2 =>
        (c.id = cid → c2 = { c with
            name := req.name, color := req.color,
            midi_cc_output := req.midi_cc_output,
            midi_cc_vu_input := req.midi_cc_vu_input,
            midi_cc_mute := req.midi_cc_mute,
            midi_cc_solo := req.midi_cc_solo,
            min_level := req.min_level, max_level := req.max_level }) ∧
        (c.id ≠ cid → c2 = c))
      db.channels (api_update_channel db actor cid req).2.channels ∧
    (∀ kwargs : List (CSFieldName × SqlVal),
      List.Forall₂ (fun c c2 =>
          c2.state_version = c.state_version ∧ c2.profile_id = c.profile_id ∧
          c2.vu_level = c.vu_level ∧ c2.id = c.id)
        db.channels (update_channel_strip cid kwargs db).channels) := by
  have hstep : api_update_channel db actor cid req =
      (ApiResult.ok, update_channel_strip cid
        [(.fname, reqStr req.name), (.fcolor, reqStr req.color),
         (.fmidi_cc_output, reqInt req.midi_cc_output),
         (.fmidi_cc_vu_input, reqInt req.midi_cc_vu_input),
         (.fmidi_cc_mute, reqInt req.midi_cc_mute),
         (.fmidi_cc_solo, reqInt req.midi_cc_solo),
         (.fmin_level, reqInt req.min_level),
         (.fmax_level, reqInt req.max_level)] db) := by
    simp [api_update_channel, hch, hrole]
  refine ⟨?_, ?_, ?_⟩
  · rw [hstep]
  · rw [hstep]
    show List.Forall₂ _ db.channels (update_channel_strip cid _ db).channels
    have hfilter : ([((CSFieldName.fname : CSFieldName), reqStr req.name),
        (.fcolor, reqStr req.color),
        (.fmidi_cc_output, reqInt req.midi_cc_output),
        (.fmidi_cc_vu_input, reqInt req.midi_cc_vu_input),
        (.fmidi_cc_mute, reqInt req.midi_cc_mute),
        (.fmidi_cc_solo, reqInt req.midi_cc_solo),
        (.fmin_level, reqInt req.min_level),
        (.fmax_level, reqInt req.max_level)].filter
          (fun kv => allowed_fields.contains kv.1)) =
        [(.fname, reqStr req.name), (.fcolor, reqStr req.color),
         (.fmidi_cc_output, reqInt req.midi_cc_output),
         (.fmidi_cc_vu_input, reqInt req.midi_cc_vu_input),
         (.fmidi_cc_mute, reqInt req.midi_cc_mute),
         (.fmidi_cc_solo, reqInt req.midi_cc_solo),
         (.fmin_level, reqInt req.min_level),
         (.fmax_level, reqInt req.max_level)] := rfl
    simp only [update_channel_strip, hfilter, List.isEmpty_cons, Bool.false_eq_true,
      if_false]
    apply forall₂_map_self
    intro c
    constructor
    · intro hc
      simp [hc, applyField, reqStr_asStr, reqInt_asInt]
    · intro hc
      simp [hc]
  · intro kwargs
    show List.Forall₂ _ db.channels (update_channel_strip cid kwargs db).channels
    simp only [update_channel_strip]
    by_cases he : (kwargs.filter (fun kv => allowed_fields.contains kv.1)).isEmpty = true
    · simp only [he, if_true]
      rw [List.forall₂_same]
      intro c _
      exact ⟨rfl, rfl, rfl, rfl⟩
    · simp only [he, Bool.false_eq_true, if_false]
      apply forall₂_map_self
      intro c
      by_cases hc : (c.id == cid) = true
      · simp only [hc, if_true]
        exact foldl_applyField_preserves _ c
      · simp only [hc, Bool.false_eq_true, if_false]
        refine ⟨?_, ?_, ?_, ?_⟩ <;> trivial

/-- C9 witness: the amended behavior evaluated on the concrete
color-only request of the counterexample. -/
theorem api_update_channel_behavior_witness :
    (api_update_channel exDB 2 1
      { name := none, color := some "red", midi_cc_output := none,
        midi_cc_vu_input := none, midi_cc_mute := none, midi_cc_solo := none,
        min_level := none, max_level := none }).1 = ApiResult.ok :=
  (api_update_channel_behavior exDB 2 1
    { name := none, color := some "red", midi_cc_output := none,
      midi_cc_vu_input := none, midi_cc_mute := none, midi_cc_solo := none,
      min_level := none, max_level := none } exChannel
    (by decide) (by decide)).1

/-! ### C10: reorder never touches rows outside the profile -/

/-- Composition of two pointwise relations along an intermediate
list. -/
theorem forall₂_trans_comp {α : Type} {R1 R2 R3 : α → α → Prop}
    {l1 l2 l3 : List α}
    (h12 : List.Forall₂ R1 l1 l2) (h23 : List.Forall₂ R2 l2 l3)
    (h : ∀ a b c, R1 a b → R2 b c → R3 a c) : List.Forall₂ R3 l1 l3 := by
  rw [List.forall₂_iff_get] at h12 h23 ⊢
  obtain ⟨hlen12, hget12⟩ := h12
  obtain ⟨hlen23, hget23⟩ := h23
  refine ⟨hlen12.trans hlen23, ?_⟩
  intro i hi1 hi3
  exact h _ _ _ (hget12 i hi1 (hlen12 ▸ hi1)) (hget23 i (hlen12 ▸ hi1) hi3)

/-- The reorder loop leaves rows of other profiles, and rows whose id
is not in the list, untouched, whatever position counter it starts
at. -/
theorem reorder_aux_frame (pid : Nat) (order : List Nat) :
    ∀ (pos : Nat) (cs : List ChannelStrip),
      List.Forall₂ (fun c c2 =>
          (c.profile_id ≠ pid → c2 = c) ∧ (c.id ∉ order → c2 = c))
        cs (reorder_aux pid pos order cs) := by
  induction order with
  | nil =>
    intro pos cs
    simp only [reorder_aux]
    rw [List.forall₂_same]
    intro c _
    exact ⟨fun _ => rfl, fun _ => rfl⟩
  | cons cid rest ih =>
    intro pos cs
    simp only [reorder_aux]
    have h1 : List.Forall₂ (fun c b : ChannelStrip =>
        b.id = c.id ∧ b.profile_id = c.profile_id ∧
        (c.profile_id ≠ pid → b = c) ∧ (c.id ≠ cid → b = c))
        cs (cs.map (fun c =>
          if c.id == cid && c.profile_id == pid then
            { c with position := some (Int.ofNat pos) }
          else c)) := by
      apply forall₂_map_self
      intro c
      by_cases hc : (c.id == cid && c.profile_id == pid) = true
      · simp only [hc, if_true]
        have hc2 := hc
        simp only [Bool.and_eq_true, beq_iff_eq] at hc2
        refine ⟨?_, ?_, fun h => absurd hc2.2 h, fun h => absurd hc2.1 h⟩ <;> trivial
      · simp only [hc, Bool.false_eq_true, if_false]
        refine ⟨?_, ?_, fun _ => ?_, fun _ => ?_⟩ <;> trivial
    have h2 := ih (pos + 1) (cs.map (fun c =>
      if c.id == cid && c.profile_id == pid then
        { c with position := some (Int.ofNat pos) }
      else c))
    refine forall₂_trans_comp h1 h2 ?_
    intro a b c hab hbc
    constructor
    · intro hp
      have hba : b = a := hab.2.2.1 hp
      have hcb : c = b := hbc.1 (by rw [hab.2.1]; exact hp)
      exact hcb.trans hba
    · intro hid
      have hba : b = a := hab.2.2.2 (fun h => hid (h ▸ List.mem_cons_self cid rest))
      have hcb : c = b := hbc.2 (by
        rw [hab.1]
        intro hmem
        exact hid (List.mem_cons_of_mem cid hmem))
      exact hcb.trans hba

/-- C10: `reorder_channel_strips(p, ids)` never modifies a channel row
whose profile_id differs from p (ids belonging to another profile or
to no channel are skipped), and also leaves rows whose id is absent
from the list untouched. -/
theorem reorder_channel_strips_frame (pid : Nat) (order : List Nat) (db : DB) :
    List.Forall₂ (fun c c2 =>
        (c.profile_id ≠ pid → c2 = c) ∧ (c.id ∉ order → c2 = c))
      db.channels (reorder_channel_strips pid order db).channels ∧
    (reorder_channel_strips pid order db).members = db.members ∧
    (reorder_channel_strips pid order db).responsibilities = db.responsibilities := by
  exact ⟨reorder_aux_frame pid order 0 db.channels, rfl, rfl⟩

end Faderbank
